import Mathlib

/-
Shallow embedding of the elixr-task-service core (src/src/api/tasks.rs and
src/src/api/users.rs). The external document store and event bus are
collaborators: each handler receives an environment record holding the
results the collaborators would return on this request, and produces an
HTTP-level response together with the trace of store calls it made and the
list of bus publish invocations it issued. The wall clock is modelled as a
single request-time instant passed in as `now` (the source reads the clock
twice in immediate succession when filling created_at and updated_at).
-/

set_option autoImplicit false

namespace ElixrTaskService

/-- Second-resolution timestamp as built in the source via
prost_wkt_types::Timestamp with nanos fixed to 0. -/
structure Timestamp where
  seconds : Int
  nanos : Int
deriving Repr, DecidableEq

/-- Modelled from the spec: `data` is an uninterpreted task payload type
(crate::models::TaskData is not under src/); only its default matters
to the handlers. -/
structure TaskData where
  payload : String
deriving Repr, DecidableEq

/-- TaskData::default() of the source. -/
def TaskData.default : TaskData := ⟨""⟩

/-- Modelled from the spec: `result` is an uninterpreted completion payload
(crate::models is not under src/). -/
structure TaskResult where
  payload : String
deriving Repr, DecidableEq

/-- Modelled from the spec: the known status enum with states
Queued, Running, Completed, Failed (crate::models::TaskStatus is not
under src/; the spec fixes the member set, the integer codes are the
usual protobuf-style tags). -/
inductive TaskStatus where
  | Queued
  | Running
  | Completed
  | Failed
deriving Repr, DecidableEq

/-- The integer wire code of a status, as stored in Task.status
(the source writes TaskStatus::Queued.into()). -/
def TaskStatus.code : TaskStatus → Int
  | .Queued => 0
  | .Running => 1
  | .Completed => 2
  | .Failed => 3

/-- Modelled from the spec: TaskStatus::try_from on the raw status value;
succeeds exactly on members of the known enum, errors otherwise. -/
def TaskStatus.tryFrom (n : Int) : Except String TaskStatus :=
  if n = 0 then .ok .Queued
  else if n = 1 then .ok .Running
  else if n = 2 then .ok .Completed
  else if n = 3 then .ok .Failed
  else .error ("unknown status value " ++ toString n)

/-- The persisted Task record layout (spec section 6; field set visible in
the Task literal of create_task and the paths! mask of task_complete). -/
structure Task where
  task_id : String
  data : Option TaskData
  object_path : String
  created_by : String
  status : Int
  result : Option TaskResult
  duration_seconds : Int
  created_at : Option Timestamp
  updated_at : Option Timestamp
  last_publish_time : Option Timestamp
deriving Repr, DecidableEq

/-- Task::default() as used in the `..Task::default()` spread of
create_task: every field at its protobuf default. -/
def Task.default : Task :=
  { task_id := ""
    data := none
    object_path := ""
    created_by := ""
    status := 0
    result := none
    duration_seconds := 0
    created_at := none
    updated_at := none
    last_publish_time := none }

/-- Inbound body of create_task (crate::commands::CreateTaskCommand). -/
structure CreateTaskCommand where
  user_id : String
  task_id : String
  object_path : String
  task_data : Option TaskData
deriving Repr, DecidableEq

/-- Inbound body of task_complete and the completed-event envelope
(crate::events::TaskCompletedEvent; shape per spec section 6). -/
structure TaskCompletedEvent where
  user_id : String
  task_id : String
  status : Int
  result : Option TaskResult
deriving Repr, DecidableEq

/-- Outbound created-event envelope (crate::events::TaskCreatedEvent). -/
structure TaskCreatedEvent where
  task : Option Task
deriving Repr, DecidableEq

/-- Payload of the inbound UserCreatedEvent. -/
structure UserPayload where
  user_id : String
deriving Repr, DecidableEq

/-- Inbound body of create_user (crate::events::UserCreatedEvent). -/
structure UserCreatedEvent where
  user : Option UserPayload
deriving Repr, DecidableEq

/-- Per-user document written by create_user. -/
structure UserDocument where
  tasks : List String
deriving Repr, DecidableEq

/-- Names of the Task fields, for field-scoped update masks. -/
inductive TaskField where
  | task_id
  | data
  | object_path
  | created_by
  | status
  | result
  | duration_seconds
  | created_at
  | updated_at
  | last_publish_time
deriving Repr, DecidableEq, BEq

/-- One store interaction, recorded in request order. -/
inductive StoreCall where
  | checkUserExists (user_id : String)
  | resolveParentPath (user_id : String)
  | checkTaskExists (task_id : String)
  | insertTask (task_id : String) (doc : Task)
  | insertUser (user_id : String) (doc : UserDocument)
  | getTask (task_id : String)
  | updateTask (task_id : String) (mask : List TaskField) (patch : Task)
deriving Repr, DecidableEq

/-- One emit_event invocation on the bus adapter. -/
inductive BusEvent where
  | taskCreated (event : TaskCreatedEvent)
deriving Repr, DecidableEq

/-- HTTP-level outcome of a handler: a 2xx with a task body, a coded
message body, or a process panic (unwrap on None). -/
inductive Response where
  | ok (code : Nat) (task : Task)
  | msg (code : Nat) (body : String)
  | panicked
deriving Repr, DecidableEq

/-- What one request did: its response, the store calls it performed and
the bus publish invocations it issued, each in program order. -/
structure Outcome where
  response : Response
  calls : List StoreCall
  published : List BusEvent
deriving Repr, DecidableEq

/-- Collaborator results available to one create_task request. -/
structure CreateEnv where
  userExists : Except String Bool
  parentPath : Except String String
  taskExists : Except String Bool
  insertResult : Except String Unit
  publishResult : Except String Unit

/-- Collaborator results available to one task_complete request. -/
structure CompleteEnv where
  userExists : Except String Bool
  parentPath : Except String String
  getTask : Except String (Option Task)
  updateResult : Except String Unit

/-- Collaborator results available to one create_user request. -/
structure UserEnv where
  userExists : Except String Bool
  insertResult : Except String Unit

/-- The Task literal built by create_task: status Queued, data defaulted
when absent, both timestamps now, remaining fields from Task::default(). -/
def buildTask (params : CreateTaskCommand) (now : Int) : Task :=
  { Task.default with
    task_id := params.task_id
    data := some (params.task_data.getD TaskData.default)
    object_path := params.object_path
    created_by := params.user_id
    status := TaskStatus.code .Queued
    created_at := some ⟨now, 0⟩
    updated_at := some ⟨now, 0⟩ }

/-- create_task of src/src/api/tasks.rs. Store-error propagation through
the question-mark operator on the existence checks is modelled from the
spec as an InternalError carrying the cause. -/
def create_task (env : CreateEnv) (params : CreateTaskCommand) (now : Int) :
    Outcome :=
  let user_id := params.user_id
  match env.userExists with
  | .error e =>
      { response := .msg 500 ("Store error: " ++ e)
        calls := [.checkUserExists user_id]
        published := [] }
  | .ok false =>
      { response := .msg 404 "User not found"
        calls := [.checkUserExists user_id]
        published := [] }
  | .ok true =>
    match env.parentPath with
    | .error e =>
        { response := .msg 500 ("Failed to get parent path: " ++ e)
          calls := [.checkUserExists user_id, .resolveParentPath user_id]
          published := [] }
    | .ok _parent =>
      match env.taskExists with
      | .error e =>
          { response := .msg 500 ("Store error: " ++ e)
            calls := [.checkUserExists user_id, .resolveParentPath user_id,
                      .checkTaskExists params.task_id]
            published := [] }
      | .ok true =>
          { response := .msg 409 "Task already exists"
            calls := [.checkUserExists user_id, .resolveParentPath user_id,
                      .checkTaskExists params.task_id]
            published := [] }
      | .ok false =>
        let task := buildTask params now
        let calls := [StoreCall.checkUserExists user_id,
                      .resolveParentPath user_id,
                      .checkTaskExists params.task_id,
                      .insertTask params.task_id task]
        match env.insertResult with
        | .error e =>
            { response := .msg 500 ("Failed to create task: " ++ e)
              calls := calls
              published := [] }
        | .ok _ =>
          match env.publishResult with
          | .error e =>
              { response := .msg 500 ("Failed to publish event: " ++ e)
                calls := calls
                published := [.taskCreated ⟨some task⟩] }
          | .ok _ =>
              { response := .ok 201 task
                calls := calls
                published := [.taskCreated ⟨some task⟩] }

/-- The field mask of the completion update, exactly the paths! list
of task_complete: status, result, duration_seconds, updated_at,
last_publish_time. -/
def completionMask : List TaskField :=
  [.status, .result, .duration_seconds, .updated_at, .last_publish_time]

/-- Store semantics of updateFields (spec sections 4.3 and 6): fields named
in the mask are taken from the patch document, every other field keeps its
stored value. -/
def applyFieldMask (mask : List TaskField) (patch stored : Task) : Task :=
  { task_id := if mask.contains .task_id then patch.task_id
               else stored.task_id
    data := if mask.contains .data then patch.data else stored.data
    object_path := if mask.contains .object_path then patch.object_path
                   else stored.object_path
    created_by := if mask.contains .created_by then patch.created_by
                  else stored.created_by
    status := if mask.contains .status then patch.status else stored.status
    result := if mask.contains .result then patch.result else stored.result
    duration_seconds := if mask.contains .duration_seconds
                        then patch.duration_seconds
                        else stored.duration_seconds
    created_at := if mask.contains .created_at then patch.created_at
                  else stored.created_at
    updated_at := if mask.contains .updated_at then patch.updated_at
                  else stored.updated_at
    last_publish_time := if mask.contains .last_publish_time
                         then patch.last_publish_time
                         else stored.last_publish_time }

/-- The patch document task_complete hands to the update: the event status
and result, duration_seconds 0, updated_at now, last_publish_time None,
remaining fields spread from the fetched task. -/
def completionPatch (event : TaskCompletedEvent) (stored : Task)
    (now : Int) : Task :=
  { stored with
    status := event.status
    result := event.result
    duration_seconds := 0
    updated_at := some ⟨now, 0⟩
    last_publish_time := none }

/-- The stored document after a completion update of `stored` by `event`
at time `now`. -/
def completionApply (stored : Task) (event : TaskCompletedEvent)
    (now : Int) : Task :=
  applyFieldMask completionMask (completionPatch event stored now) stored

/-- task_complete of src/src/api/tasks.rs. -/
def task_complete (env : CompleteEnv) (event : TaskCompletedEvent)
    (now : Int) : Outcome :=
  match TaskStatus.tryFrom event.status with
  | .error e =>
      { response := .msg 400 ("Invalid task status: " ++ e)
        calls := []
        published := [] }
  | .ok _ =>
    let user_id := event.user_id
    match env.userExists with
    | .error e =>
        { response := .msg 500 ("Store error: " ++ e)
          calls := [.checkUserExists user_id]
          published := [] }
    | .ok false =>
        { response := .msg 404 "User not found"
          calls := [.checkUserExists user_id]
          published := [] }
    | .ok true =>
      match env.parentPath with
      | .error e =>
          { response := .msg 500 ("Failed to get parent path: " ++ e)
            calls := [.checkUserExists user_id, .resolveParentPath user_id]
            published := [] }
      | .ok _parent =>
        match env.getTask with
        | .error e =>
            { response := .msg 500 ("Failed to get task: " ++ e)
              calls := [.checkUserExists user_id, .resolveParentPath user_id,
                        .getTask event.task_id]
              published := [] }
        | .ok none =>
            { response := .msg 404 ("Failed to find task: " ++ event.task_id)
              calls := [.checkUserExists user_id, .resolveParentPath user_id,
                        .getTask event.task_id]
              published := [] }
        | .ok (some task) =>
          let patch := completionPatch event task now
          let calls := [StoreCall.checkUserExists user_id,
                        .resolveParentPath user_id,
                        .getTask event.task_id,
                        .updateTask event.task_id completionMask patch]
          match env.updateResult with
          | .error e =>
              { response := .msg 500 ("Failed to update task: " ++ e)
                calls := calls
                published := [] }
          | .ok _ =>
              { response := .ok 200 (applyFieldMask completionMask patch task)
                calls := calls
                published := [] }

/-- create_user of src/src/api/users.rs. The source calls unwrap() on the
event payload before anything else, so a missing user field is a panic
with no collaborator call made. -/
def create_user (env : UserEnv) (params : UserCreatedEvent) : Outcome :=
  match params.user with
  | none =>
      { response := .panicked, calls := [], published := [] }
  | some u =>
    let user_id := u.user_id
    match env.userExists with
    | .error e =>
        { response := .msg 500 ("Store error: " ++ e)
          calls := [.checkUserExists user_id]
          published := [] }
    | .ok true =>
        { response := .msg 302 "User already exists"
          calls := [.checkUserExists user_id]
          published := [] }
    | .ok false =>
      match env.insertResult with
      | .error e =>
          { response := .msg 500 ("Failed to create user: " ++ e)
            calls := [.checkUserExists user_id, .insertUser user_id ⟨[]⟩]
            published := [] }
      | .ok _ =>
          { response := .msg 201 "User created successfully"
            calls := [.checkUserExists user_id, .insertUser user_id ⟨[]⟩]
            published := [] }

/-! Concrete fixtures used to instantiate the theorems below. -/

/-- Scenario A task as stored after creation for user u1. -/
def sampleStored : Task :=
  { Task.default with
    task_id := "t1"
    object_path := "gs://x"
    created_by := "u1"
    status := TaskStatus.code .Queued
    created_at := some ⟨3, 0⟩
    updated_at := some ⟨3, 0⟩
    data := some TaskData.default }

/-- Scenario C completion event for t1. -/
def sampleEvent : TaskCompletedEvent :=
  { user_id := "u1", task_id := "t1"
    status := TaskStatus.code .Completed
    result := some ⟨"ok"⟩ }

/-- Scenario A create command. -/
def sampleCommand : CreateTaskCommand :=
  { user_id := "u1", task_id := "t1"
    object_path := "gs://x", task_data := none }

/-- Environment where every collaborator call of task_complete succeeds
and the lookup finds sampleStored. -/
def envComplete : CompleteEnv :=
  { userExists := .ok true
    parentPath := .ok "users/u1"
    getTask := .ok (some sampleStored)
    updateResult := .ok () }

/-- Environment where every collaborator call of create_task succeeds. -/
def envCreate : CreateEnv :=
  { userExists := .ok true
    parentPath := .ok "users/u1"
    taskExists := .ok false
    insertResult := .ok ()
    publishResult := .ok () }

/-! Helper lemmas shared by the claim theorems. -/

/-- A single completion update never touches task_id, data, object_path,
created_by or created_at. -/
theorem completionApply_frame (stored : Task) (event : TaskCompletedEvent)
    (now : Int) :
    (completionApply stored event now).task_id = stored.task_id
    ∧ (completionApply stored event now).data = stored.data
    ∧ (completionApply stored event now).object_path = stored.object_path
    ∧ (completionApply stored event now).created_by = stored.created_by
    ∧ (completionApply stored event now).created_at = stored.created_at :=
  ⟨rfl, rfl, rfl, rfl, rfl⟩

/-- Any sequence of completion updates leaves task_id, data, object_path,
created_by and created_at at the values the initial document had. -/
theorem foldl_completionApply_frame
    (updates : List (TaskCompletedEvent × Int)) (t0 : Task) :
    (updates.foldl (fun t eu => completionApply t eu.1 eu.2) t0).task_id
        = t0.task_id
    ∧ (updates.foldl (fun t eu => completionApply t eu.1 eu.2) t0).data
        = t0.data
    ∧ (updates.foldl (fun t eu => completionApply t eu.1 eu.2) t0).object_path
        = t0.object_path
    ∧ (updates.foldl (fun t eu => completionApply t eu.1 eu.2) t0).created_by
        = t0.created_by
    ∧ (updates.foldl (fun t eu => completionApply t eu.1 eu.2) t0).created_at
        = t0.created_at := by
  induction updates generalizing t0 with
  | nil => exact ⟨rfl, rfl, rfl, rfl, rfl⟩
  | cons eu rest ih =>
    have h := completionApply_frame t0 eu.1 eu.2
    have hr := ih (completionApply t0 eu.1 eu.2)
    simp only [List.foldl_cons]
    exact ⟨hr.1.trans h.1, hr.2.1.trans h.2.1, hr.2.2.1.trans h.2.2.1,
           hr.2.2.2.1.trans h.2.2.2.1, hr.2.2.2.2.trans h.2.2.2.2⟩

/-! Claim theorems. -/

/-- C1: a task_complete request that reaches the update step performs a
field-scoped update whose mask is exactly status, result,
duration_seconds, updated_at, last_publish_time; the updated document
keeps the stored task_id, data, object_path, created_by and created_at,
takes status and result from the event, sets duration_seconds to 0 and
updated_at to now, and clears last_publish_time to null; and under any
sequence of such updates the preserved fields keep the values assigned at
creation time by create_task. -/
theorem task_complete_field_mask_isolation
    (env : CompleteEnv) (event : TaskCompletedEvent) (now : Int)
    (s : TaskStatus) (p : String) (stored : Task)
    (hs : TaskStatus.tryFrom event.status = .ok s)
    (hu : env.userExists = .ok true)
    (hp : env.parentPath = .ok p)
    (hg : env.getTask = .ok (some stored))
    (hw : env.updateResult = .ok ()) :
    task_complete env event now
      = { response := .ok 200 (completionApply stored event now)
          calls := [.checkUserExists event.user_id,
                    .resolveParentPath event.user_id,
                    .getTask event.task_id,
                    .updateTask event.task_id completionMask
                      (completionPatch event stored now)]
          published := [] }
    ∧ (completionApply stored event now).task_id = stored.task_id
    ∧ (completionApply stored event now).data = stored.data
    ∧ (completionApply stored event now).object_path = stored.object_path
    ∧ (completionApply stored event now).created_by = stored.created_by
    ∧ (completionApply stored event now).created_at = stored.created_at
    ∧ (completionApply stored event now).status = event.status
    ∧ (completionApply stored event now).result = event.result
    ∧ (completionApply stored event now).duration_seconds = 0
    ∧ (completionApply stored event now).updated_at = some ⟨now, 0⟩
    ∧ (completionApply stored event now).last_publish_time = none
    ∧ ∀ (params : CreateTaskCommand) (now0 : Int)
        (updates : List (TaskCompletedEvent × Int)),
        (updates.foldl (fun t eu => completionApply t eu.1 eu.2)
            (buildTask params now0)).created_by
          = (buildTask params now0).created_by
        ∧ (updates.foldl (fun t eu => completionApply t eu.1 eu.2)
            (buildTask params now0)).object_path
          = (buildTask params now0).object_path
        ∧ (updates.foldl (fun t eu => completionApply t eu.1 eu.2)
            (buildTask params now0)).created_at
          = (buildTask params now0).created_at
        ∧ (updates.foldl (fun t eu => completionApply t eu.1 eu.2)
            (buildTask params now0)).data
          = (buildTask params now0).data := by
  refine ⟨?_, rfl, rfl, rfl, rfl, rfl, rfl, rfl, rfl, rfl, rfl, ?_⟩
  · simp only [task_complete, hs, hu, hp, hg, hw, completionApply]
  · intro params now0 updates
    have h := foldl_completionApply_frame updates (buildTask params now0)
    exact ⟨h.2.2.2.1, h.2.2.1, h.2.2.2.2, h.2.1⟩

/-- C1 witness: the theorem instantiated on the Scenario C fixtures. -/
theorem task_complete_field_mask_isolation_witness :
    (task_complete envComplete sampleEvent 5).response
      = .ok 200 (completionApply sampleStored sampleEvent 5) :=
  congrArg Outcome.response
    (task_complete_field_mask_isolation envComplete sampleEvent 5
      .Completed "users/u1" sampleStored rfl rfl rfl rfl rfl).1

/-- C2: create_task invokes the event publish only when the store insert
returned success, and when the insert fails no event is published and the
caller receives the persistence error as an InternalError. -/
theorem create_task_publish_only_after_persist
    (env : CreateEnv) (params : CreateTaskCommand) (now : Int) :
    ((create_task env params now).published ≠ [] →
      env.insertResult = .ok ())
    ∧ (∀ (p : String) (e : String),
        env.userExists = .ok true → env.parentPath = .ok p →
        env.taskExists = .ok false → env.insertResult = .error e →
        (create_task env params now).published = []
        ∧ (create_task env params now).response
            = .msg 500 ("Failed to create task: " ++ e)) := by
  constructor
  · intro hpub
    cases hu : env.userExists with
    | error e => simp [create_task, hu] at hpub
    | ok b =>
      cases b with
      | false => simp [create_task, hu] at hpub
      | true =>
        cases hp : env.parentPath with
        | error e => simp [create_task, hu, hp] at hpub
        | ok p =>
          cases ht : env.taskExists with
          | error e => simp [create_task, hu, hp, ht] at hpub
          | ok b2 =>
            cases b2 with
            | true => simp [create_task, hu, hp, ht] at hpub
            | false =>
              cases hi : env.insertResult with
              | error e => simp [create_task, hu, hp, ht, hi] at hpub
              | ok u => cases u; rfl
  · intro p e hu hp ht hi
    cases hb : env.publishResult with
    | error e2 => exact ⟨by simp [create_task, hu, hp, ht, hi],
                         by simp [create_task, hu, hp, ht, hi]⟩
    | ok u => exact ⟨by simp [create_task, hu, hp, ht, hi],
                     by simp [create_task, hu, hp, ht, hi]⟩

/-- C2 witness: with a failing insert in an otherwise successful
environment, nothing is published and the response is the persistence
error. -/
theorem create_task_publish_only_after_persist_witness :
    (create_task { envCreate with insertResult := .error "down" }
        sampleCommand 3).published = []
    ∧ (create_task { envCreate with insertResult := .error "down" }
        sampleCommand 3).response
      = .msg 500 ("Failed to create task: " ++ "down") :=
  (create_task_publish_only_after_persist
      { envCreate with insertResult := .error "down" } sampleCommand 3).2
    "users/u1" "down" rfl rfl rfl rfl

/-- C3: an unrecognized status makes task_complete answer BadRequest 400
with no store call at all (so no read and no mutation) and nothing
published; the status check is the first step. -/
theorem task_complete_invalid_status_no_mutation
    (env : CompleteEnv) (event : TaskCompletedEvent) (now : Int)
    (e : String)
    (h : TaskStatus.tryFrom event.status = .error e) :
    task_complete env event now
      = { response := .msg 400 ("Invalid task status: " ++ e)
          calls := []
          published := [] } := by
  simp only [task_complete, h]

/-- C3 witness: status 99 is unknown and is rejected without any store
interaction. -/
theorem task_complete_invalid_status_no_mutation_witness :
    task_complete envComplete { sampleEvent with status := 99 } 5
      = { response := .msg 400
            ("Invalid task status: " ++ "unknown status value 99")
          calls := []
          published := [] } :=
  task_complete_invalid_status_no_mutation envComplete
    { sampleEvent with status := 99 } 5 "unknown status value 99" rfl

/-- C5: create_task short-circuits in order: a missing user answers 404
with only the user-existence call made; a scope-resolution failure
answers 500; an already existing task answers 409; in each case no insert
call is made and nothing is published. -/
theorem create_task_precondition_short_circuit
    (env : CreateEnv) (params : CreateTaskCommand) (now : Int) :
    (env.userExists = .ok false →
      create_task env params now
        = { response := .msg 404 "User not found"
            calls := [.checkUserExists params.user_id]
            published := [] })
    ∧ (∀ e, env.userExists = .ok true → env.parentPath = .error e →
      create_task env params now
        = { response := .msg 500 ("Failed to get parent path: " ++ e)
            calls := [.checkUserExists params.user_id,
                      .resolveParentPath params.user_id]
            published := [] })
    ∧ (∀ p, env.userExists = .ok true → env.parentPath = .ok p →
        env.taskExists = .ok true →
      create_task env params now
        = { response := .msg 409 "Task already exists"
            calls := [.checkUserExists params.user_id,
                      .resolveParentPath params.user_id,
                      .checkTaskExists params.task_id]
            published := [] }) := by
  refine ⟨fun hu => ?_, fun e hu hp => ?_, fun p hu hp ht => ?_⟩
  · simp only [create_task, hu]
  · simp only [create_task, hu, hp]
  · simp only [create_task, hu, hp, ht]

/-- C5 witness: the missing-user branch at a concrete environment. -/
theorem create_task_precondition_short_circuit_witness :
    create_task { envCreate with userExists := .ok false } sampleCommand 3
      = { response := .msg 404 "User not found"
          calls := [.checkUserExists "u1"]
          published := [] } :=
  (create_task_precondition_short_circuit
      { envCreate with userExists := .ok false } sampleCommand 3).1 rfl

/-- C6: when every precondition passes and both persist and publish
succeed, create_task answers 201 with the persisted task, whose status is
Queued, created_by is the request user, data is the supplied payload or
the default when absent, and both timestamps are now. -/
theorem create_task_success_builds_queued_task
    (env : CreateEnv) (params : CreateTaskCommand) (now : Int) (p : String)
    (hu : env.userExists = .ok true)
    (hp : env.parentPath = .ok p)
    (ht : env.taskExists = .ok false)
    (hi : env.insertResult = .ok ())
    (hb : env.publishResult = .ok ()) :
    (create_task env params now).response = .ok 201 (buildTask params now)
    ∧ (create_task env params now).published
        = [.taskCreated ⟨some (buildTask params now)⟩]
    ∧ (buildTask params now).status = TaskStatus.code .Queued
    ∧ (buildTask params now).created_by = params.user_id
    ∧ (buildTask params now).data
        = some (params.task_data.getD TaskData.default)
    ∧ (buildTask params now).created_at = some ⟨now, 0⟩
    ∧ (buildTask params now).updated_at = some ⟨now, 0⟩ := by
  refine ⟨?_, ?_, rfl, rfl, rfl, rfl, rfl⟩
  · simp only [create_task, hu, hp, ht, hi, hb]
  · simp only [create_task, hu, hp, ht, hi, hb]

/-- C6 witness: Scenario A at a concrete all-success environment. -/
theorem create_task_success_builds_queued_task_witness :
    (create_task envCreate sampleCommand 3).response
      = .ok 201 (buildTask sampleCommand 3)
    ∧ (buildTask sampleCommand 3).status = TaskStatus.code .Queued
    ∧ (buildTask sampleCommand 3).created_by = "u1" :=
  have h := create_task_success_builds_queued_task envCreate sampleCommand 3
    "users/u1" rfl rfl rfl rfl rfl
  ⟨h.1, h.2.2.1, h.2.2.2.1⟩

/-- A task already in the Completed state, as stored. -/
def storedCompleted : Task :=
  { sampleStored with status := TaskStatus.code .Completed }

/-- A completion event reporting status Queued, a recognized enum member
that lies backward of Completed in the state machine. -/
def regressEvent : TaskCompletedEvent :=
  { user_id := "u1", task_id := "t1"
    status := TaskStatus.code .Queued
    result := none }

/-- Environment in which the lookup finds the Completed task and every
collaborator call succeeds. -/
def envRegress : CompleteEnv :=
  { userExists := .ok true
    parentPath := .ok "users/u1"
    getTask := .ok (some storedCompleted)
    updateResult := .ok () }

/-- C4 counterexample: a stored task with status Completed, handed a
task_complete request whose status is Queued (a member of the known
enum), is accepted with 200 and its stored status moves backward from
Completed to Queued. -/
theorem task_complete_status_regression_counterexample :
    storedCompleted.status = TaskStatus.code .Completed
    ∧ (task_complete envRegress regressEvent 7).response
        = .ok 200 (completionApply storedCompleted regressEvent 7)
    ∧ (completionApply storedCompleted regressEvent 7).status
        = TaskStatus.code .Queued
    ∧ TaskStatus.code .Queued ≠ TaskStatus.code .Completed := by
  refine ⟨rfl, rfl, rfl, by decide⟩

/-- C4 amended: task_complete validates only that the supplied status is
a member of the known enum and then overwrites the stored status with it
unconditionally, whatever the previous status was; it enforces no
forward-only transition rule, so a status regression such as Completed
back to Queued is accepted and recorded. -/
theorem task_complete_overwrites_status_unconditionally
    (env : CompleteEnv) (event : TaskCompletedEvent) (now : Int)
    (s : TaskStatus) (p : String) (stored : Task)
    (hs : TaskStatus.tryFrom event.status = .ok s)
    (hu : env.userExists = .ok true)
    (hp : env.parentPath = .ok p)
    (hg : env.getTask = .ok (some stored))
    (hw : env.updateResult = .ok ()) :
    (task_complete env event now).response
      = .ok 200 (completionApply stored event now)
    ∧ (completionApply stored event now).status = event.status := by
  refine ⟨?_, rfl⟩
  simp only [task_complete, hs, hu, hp, hg, hw, completionApply]

/-- C4 witness: the amended theorem at the regression fixtures. -/
theorem task_complete_overwrites_status_unconditionally_witness :
    (task_complete envRegress regressEvent 7).response
      = .ok 200 (completionApply storedCompleted regressEvent 7)
    ∧ (completionApply storedCompleted regressEvent 7).status
      = regressEvent.status :=
  task_complete_overwrites_status_unconditionally envRegress regressEvent 7
    .Queued "users/u1" storedCompleted rfl rfl rfl rfl rfl

/-- C7: once the status is valid, the user exists and the scope resolved,
an absent task makes task_complete answer NotFound 404 naming the task,
while a store failure during the lookup answers InternalError 500 naming
the cause; neither branch reaches the update and the two responses are
distinct. -/
theorem task_complete_not_found_vs_store_error
    (env : CompleteEnv) (event : TaskCompletedEvent) (now : Int)
    (s : TaskStatus) (p : String)
    (hs : TaskStatus.tryFrom event.status = .ok s)
    (hu : env.userExists = .ok true)
    (hp : env.parentPath = .ok p) :
    (env.getTask = .ok none →
      task_complete env event now
        = { response := .msg 404 ("Failed to find task: " ++ event.task_id)
            calls := [.checkUserExists event.user_id,
                      .resolveParentPath event.user_id,
                      .getTask event.task_id]
            published := [] })
    ∧ (∀ e, env.getTask = .error e →
      task_complete env event now
        = { response := .msg 500 ("Failed to get task: " ++ e)
            calls := [.checkUserExists event.user_id,
                      .resolveParentPath event.user_id,
                      .getTask event.task_id]
            published := [] })
    ∧ ∀ (tid e : String),
        Response.msg 404 ("Failed to find task: " ++ tid)
          ≠ .msg 500 ("Failed to get task: " ++ e) := by
  refine ⟨fun hg => ?_, fun e hg => ?_, fun tid e => by simp⟩
  · simp only [task_complete, hs, hu, hp, hg]
  · simp only [task_complete, hs, hu, hp, hg]

/-- C7 witness: the absent-task branch at a concrete environment. -/
theorem task_complete_not_found_vs_store_error_witness :
    task_complete { envComplete with getTask := .ok none } sampleEvent 5
      = { response := .msg 404 ("Failed to find task: " ++ "t1")
          calls := [.checkUserExists "u1", .resolveParentPath "u1",
                    .getTask "t1"]
          published := [] } :=
  (task_complete_not_found_vs_store_error
      { envComplete with getTask := .ok none } sampleEvent 5
      .Completed "users/u1" rfl rfl rfl).1 rfl

/-- C8: every successful task_complete response carries code 200 and a
task whose duration_seconds is 0, whatever the environment, the stored
created_at or the event contents. -/
theorem task_complete_duration_seconds_zero
    (env : CompleteEnv) (event : TaskCompletedEvent) (now : Int)
    (code : Nat) (u : Task)
    (h : (task_complete env event now).response = .ok code u) :
    code = 200 ∧ u.duration_seconds = 0 := by
  unfold task_complete at h
  cases hs : TaskStatus.tryFrom event.status with
  | error e => rw [hs] at h; exact absurd h (by simp)
  | ok s =>
    rw [hs] at h
    cases hu : env.userExists with
    | error e => rw [hu] at h; exact absurd h (by simp)
    | ok b =>
      rw [hu] at h
      cases b with
      | false => exact absurd h (by simp)
      | true =>
        cases hp : env.parentPath with
        | error e => rw [hp] at h; exact absurd h (by simp)
        | ok p =>
          rw [hp] at h
          cases hg : env.getTask with
          | error e => rw [hg] at h; exact absurd h (by simp)
          | ok ot =>
            rw [hg] at h
            cases ot with
            | none => exact absurd h (by simp)
            | some t =>
              cases hw : env.updateResult with
              | error e => rw [hw] at h; exact absurd h (by simp)
              | ok v =>
                rw [hw] at h
                simp only [Response.ok.injEq] at h
                exact ⟨h.1.symm, h.2 ▸ rfl⟩

/-- C8 witness: the all-success completion yields code 200 and
duration_seconds 0. -/
theorem task_complete_duration_seconds_zero_witness :
    (completionApply sampleStored sampleEvent 5).duration_seconds = 0 :=
  (task_complete_duration_seconds_zero envComplete sampleEvent 5 200
      (completionApply sampleStored sampleEvent 5) rfl).2

/-- C9: task_complete issues no publish invocation in any execution,
successful or failing; creation is the only publishing path. -/
theorem task_complete_never_publishes
    (env : CompleteEnv) (event : TaskCompletedEvent) (now : Int) :
    (task_complete env event now).published = [] := by
  unfold task_complete
  cases TaskStatus.tryFrom event.status with
  | error e => rfl
  | ok s =>
    cases env.userExists with
    | error e => rfl
    | ok b =>
      cases b with
      | false => rfl
      | true =>
        cases env.parentPath with
        | error e => rfl
        | ok p =>
          cases env.getTask with
          | error e => rfl
          | ok ot =>
            cases ot with
            | none => rfl
            | some t =>
              cases env.updateResult with
              | error e => rfl
              | ok v => rfl

/-- C10: create_user applied to an event with no user payload panics via
unwrap before any check or store call, while any event carrying a user
payload never reaches that panic. -/
theorem create_user_missing_user_panics
    (env : UserEnv) (params : UserCreatedEvent) :
    (params.user = none →
      create_user env params
        = { response := .panicked, calls := [], published := [] })
    ∧ ∀ u, params.user = some u →
        (create_user env params).response ≠ .panicked := by
  constructor
  · intro h
    simp only [create_user, h]
  · intro u h
    cases he : env.userExists with
    | error e => simp [create_user, h, he]
    | ok b =>
      cases b with
      | true => simp [create_user, h, he]
      | false =>
        cases hi : env.insertResult with
        | error e => simp [create_user, h, he, hi]
        | ok v => simp [create_user, h, he, hi]

/-- C10 witness: a payload-free event at a concrete environment panics
with no store call made. -/
theorem create_user_missing_user_panics_witness :
    create_user { userExists := .ok false, insertResult := .ok () } ⟨none⟩
      = { response := .panicked, calls := [], published := [] } :=
  (create_user_missing_user_panics
      { userExists := .ok false, insertResult := .ok () } ⟨none⟩).1 rfl

end ElixrTaskService
